import Mathlib

/-!
Shallow embedding of the report/balance engine of the `mlops-prop-mgmt`
repository (`src/mlopspropmgmt/db/report.py` together with the in-memory
repositories it reads from), and proofs about it.

Python `datetime.date` values are modelled by the `Date` structure with
lexicographic comparison; "today" (obtained in the source via
`date.today()`) is passed as an explicit parameter.  Monetary amounts
(Python floats that are only ever added, subtracted, multiplied and
compared) are modelled by `Rat`.
-/

/-- A calendar date, as Python's `datetime.date` (year, month, day). -/
structure Date where
  year : Nat
  month : Nat
  day : Nat
deriving DecidableEq, Repr

/-- Lexicographic `<=` on dates, as Python compares `date` objects. -/
def Date.Le (a b : Date) : Prop :=
  a.year < b.year ∨ (a.year = b.year ∧ a.month < b.month) ∨
    (a.year = b.year ∧ a.month = b.month ∧ a.day ≤ b.day)

/-- Lexicographic `<` on dates, as Python compares `date` objects. -/
def Date.Lt (a b : Date) : Prop :=
  a.year < b.year ∨ (a.year = b.year ∧ a.month < b.month) ∨
    (a.year = b.year ∧ a.month = b.month ∧ a.day < b.day)

instance (a b : Date) : Decidable (Date.Le a b) := by
  unfold Date.Le; exact inferInstance

instance (a b : Date) : Decidable (Date.Lt a b) := by
  unfold Date.Lt; exact inferInstance

/-- Python's `min(a, b)`: returns `b` exactly when `b < a`. -/
def dateMin (a b : Date) : Date :=
  if Date.Lt b a then b else a

/-- Gregorian leap-year test (as Python's `calendar`/`date` validity). -/
def isLeapYear (y : Nat) : Bool :=
  y % 4 == 0 && (y % 100 != 0 || y % 400 == 0)

/-- Number of days in a month, used for `datetime.date` validity. -/
def daysInMonth (y m : Nat) : Nat :=
  if m == 2 then (if isLeapYear y then 29 else 28)
  else if m == 4 || m == 6 || m == 9 || m == 11 then 30
  else 31

/-- Validity of a `(year, month, day)` triple: exactly the triples for which
Python's `date(year, month, day)` constructor does not raise `ValueError`
(years are unbounded in this model). -/
def ValidDate (d : Date) : Prop :=
  1 ≤ d.month ∧ d.month ≤ 12 ∧ 1 ≤ d.day ∧ d.day ≤ daysInMonth d.year d.month

instance (d : Date) : Decidable (ValidDate d) := by
  unfold ValidDate; exact inferInstance

/-- Month names, from `ReportService.get_month_name`. -/
def month_names : List String :=
  ["January", "February", "March", "April", "May", "June", "July",
   "August", "September", "October", "November", "December"]

/-- `ReportService.get_month_name`: name of a month from its 1-based number. -/
def get_month_name (month : Nat) : String :=
  month_names.getD (month - 1) ""

/-- `ReportService.calculate_months_between` (Python `date.today()` passed
explicitly as `today`).  Clamps the end to `min(end_date, today)`, returns 0
for a start date in the future, otherwise the whole-month difference plus one
if the clamped end day-of-month has reached the start day-of-month. -/
def calculate_months_between (today start_date end_date : Date) : Int :=
  let actual_end := dateMin end_date today
  if Date.Lt today start_date then 0
  else
    let months : Int :=
      ((actual_end.year : Int) - (start_date.year : Int)) * 12 +
        ((actual_end.month : Int) - (start_date.month : Int))
    if actual_end.day ≥ start_date.day then months + 1 else months

/-- One step of the month-walk in
`ReportService.identify_missing_payment_periods`: December rolls over to
January 1 of the next year; otherwise the day is kept when the resulting
date is constructible, with the source's fallbacks (28 for February, 30 for
other short months) when it is not. -/
def advanceMonth (d : Date) : Date :=
  if d.month == 12 then ⟨d.year + 1, 1, 1⟩
  else
    if ValidDate ⟨d.year, d.month + 1, d.day⟩ then ⟨d.year, d.month + 1, d.day⟩
    else if d.month + 1 == 2 then ⟨d.year, d.month + 1, 28⟩
    else ⟨d.year, d.month + 1, 30⟩

/-- Linearisation of the pair `(year, month)`; the month-walk advances this
by exactly one each step. -/
def monthKey (d : Date) : Nat := d.year * 12 + d.month

/-- The `while current_date <= today` month-enumeration loop of
`ReportService.identify_missing_payment_periods`, with the fuel argument as
the termination measure: each iteration increases `monthKey` by one, so
`monthKey today + 1 - monthKey start` steps always suffice and the fuel never
runs out before the loop condition fails. -/
def expectedMonthsAux (today : Date) : Nat → Date → List (Nat × Nat)
  | 0, _ => []
  | fuel + 1, cur =>
    if Date.Le cur today then
      (cur.year, cur.month) :: expectedMonthsAux today fuel (advanceMonth cur)
    else []

/-- The full month enumeration from `lease_start` while `<= today`. -/
def expectedMonths (today lease_start : Date) : List (Nat × Nat) :=
  expectedMonthsAux today (monthKey today + 1 - monthKey lease_start) lease_start

/-- A payment record as passed to `identify_missing_payment_periods`: a dict
with a `payment_date` key (absent/non-date modelled as `none`) and an
`amount` key. -/
structure PaymentDict where
  payment_date : Option Date
  amount : Rat
deriving DecidableEq, Repr

/-- A missing payment period (`models/report.py`, `MissingPaymentPeriod`). -/
structure MissingPaymentPeriod where
  year : Nat
  month : Nat
  month_name : String
  amount_due : Rat
deriving DecidableEq, Repr

/-- The paid set of `ReportService.identify_missing_payment_periods`: the
`(year, month)` pairs of the records whose `payment_date` is present and a
date (the source checks `payment_date and isinstance(payment_date, date)`).
The source collects a Python `set`; a list with membership queries is used
here, which decides the same membership. -/
def paidMonths (payments : List PaymentDict) : List (Nat × Nat) :=
  payments.filterMap (fun p => p.payment_date.map (fun d => (d.year, d.month)))

/-- `ReportService.identify_missing_payment_periods` continued: one
`MissingPaymentPeriod` (at `monthly_rent`) for every enumerated expected
month that is not in the paid set. -/
def identify_missing_payment_periods (today lease_start_date : Date)
    (monthly_rent : Rat) (payments : List PaymentDict) :
    List MissingPaymentPeriod :=
  let paid_months := paidMonths payments
  let expected := expectedMonths today lease_start_date
  (expected.filter (fun ym => !(paid_months.contains ym))).map
    (fun ym => ⟨ym.1, ym.2, get_month_name ym.2, monthly_rent⟩)

/-! ## Entity rows and the repository state

The in-memory repositories (`db/property.py`, `db/unit.py`, `db/tenant.py`,
`db/lease.py`, `db/payment.py`) each hold a list of rows; `Repo` bundles
them into one state value.  Row structures keep the fields the report
engine reads. -/

/-- A row of `PropertyRepository.properties`. -/
structure PropertyRow where
  id : Int
  name : String
  address : String
deriving DecidableEq, Repr

/-- A row of `UnitRepository.units` (physical attributes unused by the
report engine are omitted). -/
structure UnitRow where
  unit_id : Int
  unit_name : String
  property_id : Int
deriving DecidableEq, Repr

/-- A row of `TenantRepository.tenants`. -/
structure TenantRow where
  tenant_id : Int
  name : String
  email : Option String
  phone : Option String
  unit_id : Option Int
  status : String
deriving DecidableEq, Repr

/-- `models/payment.py`, `PaymentType` (a string enum in the source). -/
inductive PaymentType where
  | rent
  | security_deposit
  | late_fee
  | utility
  | maintenance
  | other
deriving DecidableEq, Repr

/-- A row of `LeaseRepository.leases`. -/
structure LeaseRow where
  lease_id : Int
  property_id : Int
  unit_id : Int
  rent_amount : Rat
  start_date : Date
  end_date : Date
  status : String
deriving DecidableEq, Repr

/-- A row of `PaymentRepository.payments` (memo/reference/receipt fields
unused by the report engine are omitted). -/
structure PaymentRow where
  payment_id : Int
  lease_id : Int
  tenant_id : Int
  amount : Rat
  payment_date : Date
  payment_method : String
  payment_type : PaymentType
deriving DecidableEq, Repr

/-- `models/lease.py`, `Lease`: a lease row together with the tenant ids
attached from the `lease_tenants` junction table. -/
structure Lease extends LeaseRow where
  tenant_ids : List Int
deriving DecidableEq, Repr

/-- The combined state of the five singleton repositories. -/
structure Repo where
  properties : List PropertyRow
  units : List UnitRow
  tenants : List TenantRow
  leases : List LeaseRow
  lease_tenants : List (Int × Int)
  payments : List PaymentRow
deriving DecidableEq, Repr

/-! ## Repository access as state transformers

Every repository method the report engine calls is embedded as a state
transformer on `Repo`, so that the no-mutation/idempotence claim can be
stated: a read is `readOp f`, which returns `f` of the state and the state
unchanged — exactly what the Python list comprehensions in the repository
`get_*` methods do. -/

/-- A computation over the repository state. -/
def RepoM (α : Type) := Repo → α × Repo

instance : Monad RepoM where
  pure a := fun s => (a, s)
  bind m k := fun s => match m s with | (a, s') => k a s'

/-- A read-only repository access. -/
def readOp (f : Repo → α) : RepoM α := fun s => (f s, s)

/-- `PropertyRepository.get_by_id`: first row with a matching id. -/
def property_get_by_id (property_id : Int) : RepoM (Option PropertyRow) :=
  readOp (fun s => s.properties.find? (fun p => p.id == property_id))

/-- `PropertyRepository.get_all`. -/
def property_get_all : RepoM (List PropertyRow) :=
  readOp (fun s => s.properties)

/-- `UnitRepository.get_by_id`: first row with a matching id. -/
def unit_get_by_id (unit_id : Int) : RepoM (Option UnitRow) :=
  readOp (fun s => s.units.find? (fun u => u.unit_id == unit_id))

/-- `UnitRepository.get_by_property`: all units of a property. -/
def unit_get_by_property (property_id : Int) : RepoM (List UnitRow) :=
  readOp (fun s => s.units.filter (fun u => u.property_id == property_id))

/-- `TenantRepository.get_by_id`: first row with a matching id. -/
def tenant_get_by_id (tenant_id : Int) : RepoM (Option TenantRow) :=
  readOp (fun s => s.tenants.find? (fun t => t.tenant_id == tenant_id))

/-- `TenantRepository.get_by_unit`: tenants of a unit whose status is
`active` (the source filters on both conditions). -/
def tenant_get_by_unit (unit_id : Int) : RepoM (List TenantRow) :=
  readOp (fun s => s.tenants.filter
    (fun t => t.unit_id == some unit_id && t.status == "active"))

/-- Tenant ids attached to a lease via the `lease_tenants` junction rows. -/
def leaseTenantIds (s : Repo) (lease_id : Int) : List Int :=
  (s.lease_tenants.filter (fun lt => lt.1 == lease_id)).map (fun lt => lt.2)

/-- `LeaseRepository.get_by_unit`: leases of a unit, each with its tenant
ids. -/
def lease_get_by_unit (unit_id : Int) : RepoM (List Lease) :=
  readOp (fun s => (s.leases.filter (fun l => l.unit_id == unit_id)).map
    (fun l => ⟨l, leaseTenantIds s l.lease_id⟩))

/-- `LeaseRepository.get_by_tenant`: leases whose id appears among the
tenant's junction rows, each with its tenant ids. -/
def lease_get_by_tenant (tenant_id : Int) : RepoM (List Lease) :=
  readOp (fun s =>
    let lease_ids := (s.lease_tenants.filter (fun lt => lt.2 == tenant_id)).map
      (fun lt => lt.1)
    (s.leases.filter (fun l => lease_ids.contains l.lease_id)).map
      (fun l => ⟨l, leaseTenantIds s l.lease_id⟩))

/-- `PaymentRepository.get_by_tenant`: all payments of a tenant. -/
def payment_get_by_tenant (tenant_id : Int) : RepoM (List PaymentRow) :=
  readOp (fun s => s.payments.filter (fun p => p.tenant_id == tenant_id))

/-- `PaymentRepository.get_by_lease`: all payments of a lease. -/
def payment_get_by_lease (lease_id : Int) : RepoM (List PaymentRow) :=
  readOp (fun s => s.payments.filter (fun p => p.lease_id == lease_id))

/-- Python truthiness of an `Optional[int]`: `None` and `0` are falsy. -/
def truthyInt : Option Int → Bool
  | some n => n != 0
  | none => false

/-! Python float arithmetic on amounts is modelled exactly on `Rat`.  The
operations are spelled `fadd`/`fsub`/`fmul`/`pySum` rather than
`+`/`-`/`*`/`List.sum`: they are provably equal to them (`fadd_eq` and
friends below) but are defined through `mkRat`, which the kernel can
evaluate on literals (the library's `Rat.add`, `Rat.sub` and `Rat.mul` are
`@[irreducible]`). -/

/-- Addition of amounts (Python `+` on floats, modelled exactly). -/
def fadd (a b : Rat) : Rat := mkRat (a.num * b.den + b.num * a.den) (a.den * b.den)

/-- Subtraction of amounts (Python `-` on floats, modelled exactly). -/
def fsub (a b : Rat) : Rat := mkRat (a.num * b.den - b.num * a.den) (a.den * b.den)

/-- Multiplication of amounts (Python `*` on floats, modelled exactly). -/
def fmul (a b : Rat) : Rat := mkRat (a.num * b.num) (a.den * b.den)

/-- Python's builtin `sum(...)`: a left fold of `+` starting at 0. -/
def pySum (l : List Rat) : Rat := l.foldl fadd 0

/-- Python's stable `list.sort(key=key, reverse=True)`: a stable sort
placing larger keys first.  Stable sorts with respect to a fixed total
preorder have a unique result, so `List.insertionSort` with the relation
"key of the left is at least key of the right" computes exactly the
CPython (Timsort) result. -/
def pySortDesc (key : α → Rat) (l : List α) : List α :=
  l.insertionSort (fun a b => key b ≤ key a)

/-! ## Report output shapes (`models/report.py` and the dict shapes built
inline by `db/report.py`) -/

/-- `models/report.py`, `PaymentSummary`. -/
structure PaymentSummary where
  count : Nat
  total_amount : Rat
  rent_amount : Rat
  security_deposit_amount : Rat
  late_fee_amount : Rat
  utility_amount : Rat
  maintenance_amount : Rat
  other_amount : Rat
deriving DecidableEq, Repr

/-- `models/report.py`, `LeaseFinancialSummary`. -/
structure LeaseFinancialSummary where
  lease_id : Int
  rent_amount : Rat
  start_date : Date
  end_date : Date
  months_active : Int
  total_rent_due : Rat
  total_paid : Rat
  balance : Rat
deriving DecidableEq, Repr

/-- `models/report.py`, `TenantBalanceReport`. -/
structure TenantBalanceReport where
  tenant_id : Int
  tenant_name : String
  unit_id : Option Int
  property_id : Option Int
  lease_summary : Option LeaseFinancialSummary
  payment_summary : PaymentSummary
deriving DecidableEq, Repr

/-- `models/report.py`, `TenantInfo`. -/
structure TenantInfo where
  tenant_id : Int
  name : String
  email : Option String
  phone : Option String
  status : String
deriving DecidableEq, Repr

/-- The payment-history dicts built in
`ReportService.generate_unit_balance_report` (`payment_id`, `date`,
`amount`, `method`; the source stores the date as its ISO string, modelled
here by the date value itself). -/
structure PaymentHistoryEntry where
  payment_id : Int
  date : Date
  amount : Rat
  method : String
deriving DecidableEq, Repr

/-- `models/report.py`, `UnitBalanceReport`. -/
structure UnitBalanceReport where
  unit_id : Int
  unit_name : String
  property_id : Int
  property_name : String
  status : String
  tenants : List TenantInfo
  active_lease_id : Option Int
  rent_amount : Option Rat
  lease_start_date : Option Date
  lease_end_date : Option Date
  total_due : Rat
  total_paid : Rat
  balance : Rat
  missing_periods : List MissingPaymentPeriod
  payment_history : List PaymentHistoryEntry
deriving DecidableEq, Repr

/-- `models/report.py`, `UnitBalanceInfo`. -/
structure UnitBalanceInfo where
  unit_id : Int
  unit_name : String
  occupied : Bool
  tenant_count : Nat
  rent_amount : Option Rat
  total_due : Rat
  total_paid : Rat
  balance : Rat
  has_missing_payments : Bool
  missing_payment_count : Nat
deriving DecidableEq, Repr

/-- `models/report.py`, `PropertyBalanceReport`. -/
structure PropertyBalanceReport where
  property_id : Int
  property_name : String
  report_date : Date
  unit_count : Nat
  occupied_units : Nat
  total_due : Rat
  total_paid : Rat
  total_balance : Rat
  units_with_balance : Nat
  unit_balances : List UnitBalanceInfo
deriving DecidableEq, Repr

/-- The per-property summary dicts built in
`ReportService.generate_all_properties_balance_report`.  The `balance`
field is an `Option` because the sort key below defends against a
missing/`None` value with `prop_summary.get("balance", 0)`. -/
structure PropertySummaryEntry where
  property_id : Int
  name : String
  unit_count : Nat
  occupied_units : Nat
  total_due : Rat
  total_paid : Rat
  balance : Option Rat
  units_with_balance : Nat
deriving DecidableEq, Repr

/-- `models/report.py`, `AllPropertiesBalanceReport`. -/
structure AllPropertiesBalanceReport where
  report_date : Date
  property_count : Nat
  total_units : Nat
  occupied_units : Nat
  total_due : Rat
  total_paid : Rat
  total_balance : Rat
  property_summaries : List PropertySummaryEntry
deriving DecidableEq, Repr

/-- The per-tenant summary dicts built in
`ReportService.generate_property_report`. -/
structure TenantSummaryEntry where
  tenant_id : Int
  tenant_name : String
  lease_id : Int
  rent_amount : Rat
  rent_due : Rat
  rent_paid : Rat
  balance : Rat
deriving DecidableEq, Repr

/-- The per-unit summary dicts built in
`ReportService.generate_property_report`. -/
structure UnitSummaryEntry where
  unit_id : Int
  unit_name : String
  occupied : Bool
  tenants : List TenantSummaryEntry
  rent_due : Rat
  rent_paid : Rat
  balance : Rat
deriving DecidableEq, Repr

/-- `models/report.py`, `PropertyFinancialSummary`. -/
structure PropertyFinancialSummary where
  property_id : Int
  property_name : String
  unit_count : Nat
  occupied_units : Nat
  total_rent_due : Rat
  total_paid : Rat
  total_balance : Rat
  unit_summaries : List UnitSummaryEntry
deriving DecidableEq, Repr

/-- The value dispatched by `ReportService.generate_balance_report`
(`Union[UnitBalanceReport, PropertyBalanceReport,
AllPropertiesBalanceReport, None]`, the `None` handled by `Option`). -/
inductive BalanceReport where
  | unitR : UnitBalanceReport → BalanceReport
  | propR : PropertyBalanceReport → BalanceReport
  | allR : AllPropertiesBalanceReport → BalanceReport
deriving DecidableEq, Repr

/-! ## The report builders (`ReportService`, `db/report.py`) -/

/-- `ReportService.generate_tenant_balance_report`. -/
def generate_tenant_balance_report (today : Date) (tenant_id : Int) :
    RepoM (Option TenantBalanceReport) := do
  let tenant? ← tenant_get_by_id tenant_id
  match tenant? with
  | none => pure none
  | some tenant => do
    let unit_id := tenant.unit_id
    -- `property_id = None; if unit_id: unit = get_by_id(unit_id); if unit: ...`
    let property_id ← (match unit_id with
      | some uid =>
        if uid != 0 then do
          let unit? ← unit_get_by_id uid
          pure (unit?.map (fun u => u.property_id))
        else pure (none : Option Int)
      | none => pure (none : Option Int))
    let tenant_leases ← lease_get_by_tenant tenant_id
    let active_leases := tenant_leases.filter (fun l => l.status == "active")
    let payments ← payment_get_by_tenant tenant_id
    let payment_summary : PaymentSummary := {
      count := payments.length
      total_amount := pySum (payments.map (fun p => p.amount))
      rent_amount := pySum ((payments.filter
        (fun p => p.payment_type == PaymentType.rent)).map (fun p => p.amount))
      security_deposit_amount := pySum ((payments.filter
        (fun p => p.payment_type == PaymentType.security_deposit)).map
          (fun p => p.amount))
      late_fee_amount := pySum ((payments.filter
        (fun p => p.payment_type == PaymentType.late_fee)).map (fun p => p.amount))
      utility_amount := pySum ((payments.filter
        (fun p => p.payment_type == PaymentType.utility)).map (fun p => p.amount))
      maintenance_amount := pySum ((payments.filter
        (fun p => p.payment_type == PaymentType.maintenance)).map
          (fun p => p.amount))
      other_amount := pySum ((payments.filter
        (fun p => p.payment_type == PaymentType.other)).map (fun p => p.amount)) }
    let lease_summary : Option LeaseFinancialSummary :=
      match active_leases with
      | [] => none
      | lease :: _ =>
        let months_active := calculate_months_between today lease.start_date lease.end_date
        let total_rent_due := fmul lease.rent_amount (months_active : Rat)
        let total_paid := pySum ((payments.filter (fun p =>
          p.lease_id == lease.lease_id && p.payment_type == PaymentType.rent)).map
            (fun p => p.amount))
        some { lease_id := lease.lease_id
               rent_amount := lease.rent_amount
               start_date := lease.start_date
               end_date := lease.end_date
               months_active := months_active
               total_rent_due := total_rent_due
               total_paid := total_paid
               balance := fsub total_rent_due total_paid }
    pure (some { tenant_id := tenant.tenant_id
                 tenant_name := tenant.name
                 unit_id := unit_id
                 property_id := property_id
                 lease_summary := lease_summary
                 payment_summary := payment_summary })

/-- `ReportService.generate_unit_balance_report`. -/
def generate_unit_balance_report (today : Date) (unit_id : Int) :
    RepoM (Option UnitBalanceReport) := do
  let unit? ← unit_get_by_id unit_id
  match unit? with
  | none => pure none
  | some unit => do
    let property? ← property_get_by_id unit.property_id
    match property? with
    | none => pure none
    | some property_obj => do
      let tenants ← tenant_get_by_unit unit_id
      let active_tenants := tenants.filter (fun t => t.status == "active")
      let tenant_info_list : List TenantInfo := active_tenants.map
        (fun t => ⟨t.tenant_id, t.name, t.email, t.phone, t.status⟩)
      -- `status = "vacant"; if active_tenants: status = "occupied"`
      let status := if active_tenants.isEmpty then "vacant" else "occupied"
      let unit_leases ← lease_get_by_unit unit_id
      let active_leases := unit_leases.filter (fun l => l.status == "active")
      -- the fields initialised before the `if active_leases:` block, then
      -- overwritten inside it when a first active lease exists
      let fields ← (match active_leases with
        | [] =>
          pure ((none : Option Int), (none : Option Rat), (none : Option Date),
            (none : Option Date), (0 : Rat), (0 : Rat),
            ([] : List MissingPaymentPeriod), ([] : List PaymentHistoryEntry))
        | lease :: _ => do
          let months_active := calculate_months_between today lease.start_date lease.end_date
          let total_due := fmul lease.rent_amount (months_active : Rat)
          let lease_payments ← payment_get_by_lease lease.lease_id
          let rent_payments := lease_payments.filter
            (fun p => p.payment_type == PaymentType.rent)
          let total_paid := pySum (rent_payments.map (fun p => p.amount))
          let payment_history : List PaymentHistoryEntry := rent_payments.map
            (fun p => ⟨p.payment_id, p.payment_date, p.amount, p.payment_method⟩)
          let payment_dicts : List PaymentDict := rent_payments.map
            (fun p => ⟨some p.payment_date, p.amount⟩)
          let missing_periods :=
            identify_missing_payment_periods today lease.start_date lease.rent_amount
              payment_dicts
          pure (some lease.lease_id, some lease.rent_amount, some lease.start_date,
            some lease.end_date, total_due, total_paid, missing_periods,
            payment_history))
      let (active_lease_id, rent_amount, lease_start_date, lease_end_date,
        total_due, total_paid, missing_periods, payment_history) := fields
      pure (some { unit_id := unit.unit_id
                   unit_name := unit.unit_name
                   property_id := property_obj.id
                   property_name := property_obj.name
                   status := status
                   tenants := tenant_info_list
                   active_lease_id := active_lease_id
                   rent_amount := rent_amount
                   lease_start_date := lease_start_date
                   lease_end_date := lease_end_date
                   total_due := total_due
                   total_paid := total_paid
                   balance := fsub total_due total_paid
                   missing_periods := missing_periods
                   payment_history := payment_history })

/-- The body of the per-unit loop of
`ReportService.generate_property_balance_report`: the `UnitBalanceInfo` a
single unit contributes (vacant and lease-less units keep the initial
zero/`None` fields). -/
def unitBalanceInfoFor (today : Date) (unit : UnitRow) : RepoM UnitBalanceInfo := do
  let tenants ← tenant_get_by_unit unit.unit_id
  let active_tenants := tenants.filter (fun t => t.status == "active")
  let tenant_count := active_tenants.length
  let is_occupied := tenant_count > 0
  if is_occupied then do
    let unit_leases ← lease_get_by_unit unit.unit_id
    let active_leases := unit_leases.filter (fun l => l.status == "active")
    match active_leases with
    | [] =>
      pure { unit_id := unit.unit_id, unit_name := unit.unit_name,
             occupied := is_occupied, tenant_count := tenant_count,
             rent_amount := none, total_due := 0, total_paid := 0, balance := 0,
             has_missing_payments := false, missing_payment_count := 0 }
    | lease :: _ => do
      let months_active := calculate_months_between today lease.start_date lease.end_date
      let unit_due := fmul lease.rent_amount (months_active : Rat)
      let lease_payments ← payment_get_by_lease lease.lease_id
      let rent_payments := lease_payments.filter
        (fun p => p.payment_type == PaymentType.rent)
      let unit_paid := pySum (rent_payments.map (fun p => p.amount))
      let payment_dicts : List PaymentDict := rent_payments.map
        (fun p => ⟨some p.payment_date, p.amount⟩)
      let missing_periods :=
        identify_missing_payment_periods today lease.start_date lease.rent_amount
          payment_dicts
      pure { unit_id := unit.unit_id, unit_name := unit.unit_name,
             occupied := is_occupied, tenant_count := tenant_count,
             rent_amount := some lease.rent_amount, total_due := unit_due,
             total_paid := unit_paid, balance := fsub unit_due unit_paid,
             has_missing_payments := !missing_periods.isEmpty,
             missing_payment_count := missing_periods.length }
  else
    pure { unit_id := unit.unit_id, unit_name := unit.unit_name,
           occupied := is_occupied, tenant_count := tenant_count,
           rent_amount := none, total_due := 0, total_paid := 0, balance := 0,
           has_missing_payments := false, missing_payment_count := 0 }

/-- The `for unit in units` loop of
`ReportService.generate_property_balance_report`, collecting one
`UnitBalanceInfo` per unit in repository order. -/
def collectUnitBalances (today : Date) : List UnitRow → RepoM (List UnitBalanceInfo)
  | [] => pure []
  | unit :: rest => do
    let info ← unitBalanceInfoFor today unit
    let infos ← collectUnitBalances today rest
    pure (info :: infos)

/-- `ReportService.generate_property_balance_report`.  The running
accumulators of the source loop (`occupied_units`, `total_due`,
`total_paid`, `units_with_balance`) are recovered from the per-unit infos:
each loop iteration adds exactly the corresponding field of the unit's
`UnitBalanceInfo` (vacant/lease-less units contribute zero). -/
def generate_property_balance_report (today : Date) (property_id : Int) :
    RepoM (Option PropertyBalanceReport) := do
  let property? ← property_get_by_id property_id
  match property? with
  | none => pure none
  | some property_obj => do
    let units ← unit_get_by_property property_id
    let unit_count := units.length
    let raw ← collectUnitBalances today units
    let occupied_units := (raw.filter (fun i => i.occupied)).length
    let total_due := pySum (raw.map (fun i => i.total_due))
    let total_paid := pySum (raw.map (fun i => i.total_paid))
    let units_with_balance := (raw.filter (fun i => i.balance > 0)).length
    -- `unit_balances.sort(key=lambda u: float(u.balance), reverse=True)`
    let unit_balances := pySortDesc (fun u => u.balance) raw
    pure (some { property_id := property_obj.id
                 property_name := property_obj.name
                 report_date := today
                 unit_count := unit_count
                 occupied_units := occupied_units
                 total_due := total_due
                 total_paid := total_paid
                 total_balance := fsub total_due total_paid
                 units_with_balance := units_with_balance
                 unit_balances := unit_balances })

/-- The sort key of
`ReportService.generate_all_properties_balance_report`
(`get_balance_value`): `prop_summary.get("balance", 0)` with `None` (and a
value `float` cannot parse) treated as `0.0`. -/
def get_balance_value (prop_summary : PropertySummaryEntry) : Rat :=
  match prop_summary.balance with
  | none => 0
  | some b => b

/-- The `for prop in properties` loop of
`ReportService.generate_all_properties_balance_report`: one summary dict
per property whose detailed report exists. -/
def collectPropertySummaries (today : Date) :
    List PropertyRow → RepoM (List PropertySummaryEntry)
  | [] => pure []
  | prop :: rest => do
    let property_report? ← generate_property_balance_report today prop.id
    let rest_entries ← collectPropertySummaries today rest
    match property_report? with
    | some property_report =>
      pure ({ property_id := prop.id
              name := prop.name
              unit_count := property_report.unit_count
              occupied_units := property_report.occupied_units
              total_due := property_report.total_due
              total_paid := property_report.total_paid
              balance := some property_report.total_balance
              units_with_balance := property_report.units_with_balance } :: rest_entries)
    | none => pure rest_entries

/-- `ReportService.generate_all_properties_balance_report`.  The running
totals of the source loop are recovered from the collected summaries: each
successful property report adds exactly the corresponding summary field. -/
def generate_all_properties_balance_report (today : Date) :
    RepoM AllPropertiesBalanceReport := do
  let properties ← property_get_all
  let property_count := properties.length
  let entries ← collectPropertySummaries today properties
  let total_units := (entries.map (fun e => e.unit_count)).sum
  let occupied_units := (entries.map (fun e => e.occupied_units)).sum
  let total_due := pySum (entries.map (fun e => e.total_due))
  let total_paid := pySum (entries.map (fun e => e.total_paid))
  -- `property_summaries.sort(key=get_balance_value, reverse=True)`
  let property_summaries := pySortDesc get_balance_value entries
  pure { report_date := today
         property_count := property_count
         total_units := total_units
         occupied_units := occupied_units
         total_due := total_due
         total_paid := total_paid
         total_balance := fsub total_due total_paid
         property_summaries := property_summaries }

/-- The `for tenant_id in lease.tenant_ids` loop of
`ReportService.generate_property_report`. -/
def collectTenantSummaries (lease : Lease) (lease_rent_due lease_rent_paid : Rat) :
    List Int → RepoM (List TenantSummaryEntry)
  | [] => pure []
  | tenant_id :: rest => do
    let tenant? ← tenant_get_by_id tenant_id
    let rest_entries ← collectTenantSummaries lease lease_rent_due lease_rent_paid rest
    match tenant? with
    | some tenant =>
      pure ({ tenant_id := tenant.tenant_id
              tenant_name := tenant.name
              lease_id := lease.lease_id
              rent_amount := lease.rent_amount
              rent_due := lease_rent_due
              rent_paid := lease_rent_paid
              balance := fsub lease_rent_due lease_rent_paid } :: rest_entries)
    | none => pure rest_entries

/-- The `for lease in active_leases` loop of
`ReportService.generate_property_report`: accumulated rent due, rent paid
and tenant summaries of a unit's active leases. -/
def collectLeaseTotals (today : Date) :
    List Lease → RepoM (Rat × Rat × List TenantSummaryEntry)
  | [] => pure (0, 0, [])
  | lease :: rest => do
    let months_active := calculate_months_between today lease.start_date lease.end_date
    let lease_rent_due := fmul lease.rent_amount (months_active : Rat)
    let lease_payments ← payment_get_by_lease lease.lease_id
    let rent_payments := lease_payments.filter
      (fun p => p.payment_type == PaymentType.rent)
    let lease_rent_paid := pySum (rent_payments.map (fun p => p.amount))
    let tenant_summaries ← collectTenantSummaries lease lease_rent_due lease_rent_paid
      lease.tenant_ids
    let (rest_due, rest_paid, rest_tenants) ← collectLeaseTotals today rest
    pure (fadd lease_rent_due rest_due, fadd lease_rent_paid rest_paid,
      tenant_summaries ++ rest_tenants)

/-- The body of the per-unit loop of `ReportService.generate_property_report`. -/
def unitSummaryFor (today : Date) (unit : UnitRow) : RepoM UnitSummaryEntry := do
  let tenants ← tenant_get_by_unit unit.unit_id
  let active_tenants := tenants.filter (fun t => t.status == "active")
  if active_tenants.isEmpty then
    pure { unit_id := unit.unit_id, unit_name := unit.unit_name, occupied := false,
           tenants := [], rent_due := 0, rent_paid := 0, balance := 0 }
  else do
    let unit_leases ← lease_get_by_unit unit.unit_id
    let active_leases := unit_leases.filter (fun l => l.status == "active")
    let (unit_rent_due, unit_rent_paid, tenant_summaries) ←
      collectLeaseTotals today active_leases
    pure { unit_id := unit.unit_id, unit_name := unit.unit_name, occupied := true,
           tenants := tenant_summaries, rent_due := unit_rent_due,
           rent_paid := unit_rent_paid, balance := fsub unit_rent_due unit_rent_paid }

/-- The `for unit in units` loop of `ReportService.generate_property_report`. -/
def collectUnitSummaries (today : Date) : List UnitRow → RepoM (List UnitSummaryEntry)
  | [] => pure []
  | unit :: rest => do
    let entry ← unitSummaryFor today unit
    let entries ← collectUnitSummaries today rest
    pure (entry :: entries)

/-- `ReportService.generate_property_report` (the simple roll-up variant
returning a `PropertyFinancialSummary`).  The source's running
accumulators are recovered from the per-unit entries, which contribute
exactly the amounts the loop adds. -/
def generate_property_report (today : Date) (property_id : Int) :
    RepoM (Option PropertyFinancialSummary) := do
  let property? ← property_get_by_id property_id
  match property? with
  | none => pure none
  | some property_obj => do
    let units ← unit_get_by_property property_id
    let unit_summaries ← collectUnitSummaries today units
    let occupied_units := (unit_summaries.filter (fun e => e.occupied)).length
    let total_rent_due := pySum (unit_summaries.map (fun e => e.rent_due))
    let total_paid := pySum (unit_summaries.map (fun e => e.rent_paid))
    pure (some { property_id := property_obj.id
                 property_name := property_obj.name
                 unit_count := units.length
                 occupied_units := occupied_units
                 total_rent_due := total_rent_due
                 total_paid := total_paid
                 total_balance := fsub total_rent_due total_paid
                 unit_summaries := unit_summaries })

/-- `ReportService.generate_balance_report`: the dispatcher.  The source
guards are Python truthiness tests (`if unit_id: ... elif property_id:`),
so `None` and `0` both fall through. -/
def generate_balance_report (today : Date)
    (property_id unit_id : Option Int) : RepoM (Option BalanceReport) := do
  if truthyInt unit_id then do
    let r ← generate_unit_balance_report today (unit_id.getD 0)
    pure (r.map BalanceReport.unitR)
  else if truthyInt property_id then do
    let r ← generate_property_balance_report today (property_id.getD 0)
    pure (r.map BalanceReport.propR)
  else do
    let r ← generate_all_properties_balance_report today
    pure (some (BalanceReport.allR r))

/-! ## The sample repository contents

The rows the five repositories are initialised with in their `__init__`
methods; used as concrete witnesses. -/

/-- The sample data of the repository singletons. -/
def sampleRepo : Repo :=
  { properties := [
      ⟨1, "Sunset Apartments", "123 Main Street, Anytown, USA"⟩,
      ⟨2, "Ocean View Condos", "456 Beach Road, Coastville, USA"⟩]
    units := [
      ⟨1, "101", 1⟩,
      ⟨2, "102", 1⟩,
      ⟨3, "201", 2⟩]
    tenants := [
      ⟨1, "John Smith", some "john.smith@example.com", some "555-123-4567", some 1, "active"⟩,
      ⟨2, "Jane Doe", some "jane.doe@example.com", some "555-987-6543", some 2, "active"⟩,
      ⟨3, "Robert Johnson", some "robert.j@example.com", some "555-567-8901", some 3, "active"⟩]
    leases := [
      ⟨1, 1, 1, 1200, ⟨2023, 1, 1⟩, ⟨2024, 1, 1⟩, "active"⟩,
      ⟨2, 1, 2, 1000, ⟨2023, 2, 1⟩, ⟨2024, 2, 1⟩, "active"⟩,
      ⟨3, 2, 3, 1500, ⟨2023, 3, 1⟩, ⟨2024, 3, 1⟩, "active"⟩]
    lease_tenants := [(1, 1), (2, 2), (3, 3)]
    payments := [
      ⟨1, 1, 1, 1200, ⟨2023, 1, 5⟩, "check", PaymentType.rent⟩,
      ⟨2, 2, 2, 1000, ⟨2023, 2, 3⟩, "bank_transfer", PaymentType.rent⟩,
      ⟨3, 3, 3, 1500, ⟨2023, 3, 2⟩, "cash", PaymentType.rent⟩] }

/-- `sampleRepo` with every lease removed: its units exist and resolve to
existing properties but have no active lease. -/
def noLeaseRepo : Repo :=
  { sampleRepo with leases := [] }

/-! ## Spec-side definitions

Definitions following the specification's words rather than the source,
used to state the claims that compare the implementation against the
spec's description. -/

/-- The inverse of `monthKey` on valid months: the `(year, month)` pair of
a linearised month index (`month` ranges over `1..12`). -/
def keyToYM (k : Nat) : Nat × Nat := ((k - 1) / 12, (k - 1) % 12 + 1)

/-- The calendar months from linearised index `a` through `b`, inclusive,
in chronological order.  This is the spec's "every (year, month) pair from
lease_start's month through the current month (inclusive)". -/
def monthsFromTo (a b : Nat) : List (Nat × Nat) :=
  (List.range' a (b + 1 - a)).map keyToYM

/-- The month count as the specification describes it: 0 when the start is
after today, otherwise the whole-month difference to the clamped end plus 1
if the clamped end day-of-month is at least the start day-of-month. -/
def monthsBetweenSpec (today start_date end_date : Date) : Int :=
  if Date.Lt today start_date then 0
  else
    let e := dateMin end_date today
    ((e.year : Int) - (start_date.year : Int)) * 12 +
      ((e.month : Int) - (start_date.month : Int)) +
      (if e.day ≥ start_date.day then 1 else 0)

/-- A repository computation preserves the repository state: the property
behind "no call mutates repository data". -/
def Preserves (m : RepoM α) : Prop := ∀ s : Repo, (m s).2 = s

/-! # Theorems -/

/-! ## The `RepoM` state monad -/

@[simp] theorem bind_apply (m : RepoM α) (k : α → RepoM β) (s : Repo) :
    (m >>= k) s = k (m s).1 (m s).2 := rfl

@[simp] theorem pure_apply (a : α) (s : Repo) : (pure a : RepoM α) s = (a, s) := rfl

@[simp] theorem readOp_apply (f : Repo → α) (s : Repo) : readOp f s = (f s, s) := rfl

theorem Preserves.bind {m : RepoM α} {k : α → RepoM β}
    (hm : Preserves m) (hk : ∀ a, Preserves (k a)) : Preserves (m >>= k) := by
  intro s
  show (k (m s).1 (m s).2).2 = s
  rw [hm s]
  exact hk (m s).1 s

theorem Preserves.pure (a : α) : Preserves (pure a : RepoM α) := fun _ => rfl

theorem Preserves.readOp (f : Repo → α) : Preserves (readOp f) := fun _ => rfl

/-! ## No repository method called by the report engine mutates the state -/

theorem preserves_generate_tenant_balance_report (today : Date) (tid : Int) :
    Preserves (generate_tenant_balance_report today tid) := by
  unfold generate_tenant_balance_report
  refine Preserves.bind (Preserves.readOp _) (fun t? => ?_)
  cases t? with
  | none => exact Preserves.pure _
  | some tenant =>
    refine Preserves.bind ?_ (fun pid => ?_)
    · cases tenant.unit_id with
      | none => exact Preserves.pure _
      | some uid =>
        dsimp only
        split
        · exact Preserves.bind (Preserves.readOp _) (fun _ => Preserves.pure _)
        · exact Preserves.pure _
    · refine Preserves.bind (Preserves.readOp _) (fun _ => ?_)
      refine Preserves.bind (Preserves.readOp _) (fun _ => ?_)
      exact Preserves.pure _

theorem preserves_generate_unit_balance_report (today : Date) (uid : Int) :
    Preserves (generate_unit_balance_report today uid) := by
  unfold generate_unit_balance_report
  refine Preserves.bind (Preserves.readOp _) (fun u? => ?_)
  cases u? with
  | none => exact Preserves.pure _
  | some unit =>
    refine Preserves.bind (Preserves.readOp _) (fun p? => ?_)
    cases p? with
    | none => exact Preserves.pure _
    | some property_obj =>
      refine Preserves.bind (Preserves.readOp _) (fun _ => ?_)
      refine Preserves.bind (Preserves.readOp _) (fun leases => ?_)
      refine Preserves.bind ?_ (fun fields => ?_)
      · cases leases.filter (fun l => l.status == "active") with
        | nil => exact Preserves.pure _
        | cons lease rest =>
          exact Preserves.bind (Preserves.readOp _) (fun _ => Preserves.pure _)
      · exact Preserves.pure _

theorem preserves_unitBalanceInfoFor (today : Date) (u : UnitRow) :
    Preserves (unitBalanceInfoFor today u) := by
  unfold unitBalanceInfoFor
  refine Preserves.bind (Preserves.readOp _) (fun tenants => ?_)
  dsimp only
  split
  · refine Preserves.bind (Preserves.readOp _) (fun leases => ?_)
    cases leases.filter (fun l => l.status == "active") with
    | nil => exact Preserves.pure _
    | cons lease rest =>
      exact Preserves.bind (Preserves.readOp _) (fun _ => Preserves.pure _)
  · exact Preserves.pure _

theorem preserves_collectUnitBalances (today : Date) (units : List UnitRow) :
    Preserves (collectUnitBalances today units) := by
  induction units with
  | nil => exact Preserves.pure _
  | cons u rest ih =>
    exact Preserves.bind (preserves_unitBalanceInfoFor today u)
      (fun _ => Preserves.bind ih (fun _ => Preserves.pure _))

theorem preserves_generate_property_balance_report (today : Date) (pid : Int) :
    Preserves (generate_property_balance_report today pid) := by
  unfold generate_property_balance_report
  refine Preserves.bind (Preserves.readOp _) (fun p? => ?_)
  cases p? with
  | none => exact Preserves.pure _
  | some property_obj =>
    refine Preserves.bind (Preserves.readOp _) (fun units => ?_)
    exact Preserves.bind (preserves_collectUnitBalances today units)
      (fun _ => Preserves.pure _)

theorem preserves_collectPropertySummaries (today : Date) (props : List PropertyRow) :
    Preserves (collectPropertySummaries today props) := by
  induction props with
  | nil => exact Preserves.pure _
  | cons prop rest ih =>
    refine Preserves.bind (preserves_generate_property_balance_report today prop.id)
      (fun r? => Preserves.bind ih (fun entries => ?_))
    cases r? with
    | none => exact Preserves.pure _
    | some r => exact Preserves.pure _

theorem preserves_generate_all_properties_balance_report (today : Date) :
    Preserves (generate_all_properties_balance_report today) := by
  unfold generate_all_properties_balance_report
  refine Preserves.bind (Preserves.readOp _) (fun props => ?_)
  exact Preserves.bind (preserves_collectPropertySummaries today props)
    (fun _ => Preserves.pure _)

theorem preserves_collectTenantSummaries (lease : Lease) (d p : Rat) (tids : List Int) :
    Preserves (collectTenantSummaries lease d p tids) := by
  induction tids with
  | nil => exact Preserves.pure _
  | cons tid rest ih =>
    refine Preserves.bind (Preserves.readOp _) (fun t? => Preserves.bind ih (fun _ => ?_))
    cases t? with
    | none => exact Preserves.pure _
    | some t => exact Preserves.pure _

theorem preserves_collectLeaseTotals (today : Date) (leases : List Lease) :
    Preserves (collectLeaseTotals today leases) := by
  induction leases with
  | nil => exact Preserves.pure _
  | cons lease rest ih =>
    refine Preserves.bind (Preserves.readOp _) (fun _ => ?_)
    refine Preserves.bind (preserves_collectTenantSummaries _ _ _ _) (fun _ => ?_)
    exact Preserves.bind ih (fun _ => Preserves.pure _)

theorem preserves_unitSummaryFor (today : Date) (u : UnitRow) :
    Preserves (unitSummaryFor today u) := by
  unfold unitSummaryFor
  refine Preserves.bind (Preserves.readOp _) (fun tenants => ?_)
  dsimp only
  split
  · exact Preserves.pure _
  · refine Preserves.bind (Preserves.readOp _) (fun leases => ?_)
    exact Preserves.bind (preserves_collectLeaseTotals _ _) (fun _ => Preserves.pure _)

theorem preserves_collectUnitSummaries (today : Date) (units : List UnitRow) :
    Preserves (collectUnitSummaries today units) := by
  induction units with
  | nil => exact Preserves.pure _
  | cons u rest ih =>
    exact Preserves.bind (preserves_unitSummaryFor today u)
      (fun _ => Preserves.bind ih (fun _ => Preserves.pure _))

theorem preserves_generate_property_report (today : Date) (pid : Int) :
    Preserves (generate_property_report today pid) := by
  unfold generate_property_report
  refine Preserves.bind (Preserves.readOp _) (fun p? => ?_)
  cases p? with
  | none => exact Preserves.pure _
  | some property_obj =>
    refine Preserves.bind (Preserves.readOp _) (fun units => ?_)
    exact Preserves.bind (preserves_collectUnitSummaries today units)
      (fun _ => Preserves.pure _)

theorem preserves_generate_balance_report (today : Date) (pid uid : Option Int) :
    Preserves (generate_balance_report today pid uid) := by
  unfold generate_balance_report
  split
  · exact Preserves.bind (preserves_generate_unit_balance_report _ _)
      (fun _ => Preserves.pure _)
  · split
    · exact Preserves.bind (preserves_generate_property_balance_report _ _)
        (fun _ => Preserves.pure _)
    · exact Preserves.bind (preserves_generate_all_properties_balance_report _)
        (fun _ => Preserves.pure _)

/-! ## Arithmetic wrappers agree with the library operations -/

theorem fadd_eq (a b : Rat) : fadd a b = a + b := (Rat.add_def' a b).symm

theorem fmul_eq (a b : Rat) : fmul a b = a * b := by
  have h : a.den * b.den ≠ 0 := Nat.mul_ne_zero a.den_nz b.den_nz
  rw [Rat.mul_def, fmul, Rat.mkRat_def, dif_neg h]

theorem fsub_eq (a b : Rat) : fsub a b = a - b := by
  have h : a.den * b.den ≠ 0 := Nat.mul_ne_zero a.den_nz b.den_nz
  rw [Rat.sub_def, fsub, Rat.mkRat_def, dif_neg h]

theorem pySum_eq (l : List Rat) : pySum l = l.sum := by
  suffices h : ∀ a : Rat, l.foldl fadd a = a + l.sum by simpa using h 0
  induction l with
  | nil => intro a; simp [List.foldl]
  | cons x xs ih => intro a; simp [List.foldl, fadd_eq, ih, List.sum_cons]; ring

/-- C8: every report-building operation of `ReportService` leaves the
repository state unchanged, and calling it a second time on the state left
by the first call yields exactly the first call's output: the builders are
pure functions of the repository contents, the current date and their
arguments. -/
theorem report_builders_idempotent :
    ∀ (s : Repo) (today : Date) (tenant_id unit_id property_id : Int)
      (pid? uid? : Option Int),
      ((generate_tenant_balance_report today tenant_id s).2 = s ∧
        (generate_tenant_balance_report today tenant_id
            ((generate_tenant_balance_report today tenant_id s).2)).1 =
          (generate_tenant_balance_report today tenant_id s).1) ∧
      ((generate_property_report today property_id s).2 = s ∧
        (generate_property_report today property_id
            ((generate_property_report today property_id s).2)).1 =
          (generate_property_report today property_id s).1) ∧
      ((generate_unit_balance_report today unit_id s).2 = s ∧
        (generate_unit_balance_report today unit_id
            ((generate_unit_balance_report today unit_id s).2)).1 =
          (generate_unit_balance_report today unit_id s).1) ∧
      ((generate_property_balance_report today property_id s).2 = s ∧
        (generate_property_balance_report today property_id
            ((generate_property_balance_report today property_id s).2)).1 =
          (generate_property_balance_report today property_id s).1) ∧
      ((generate_all_properties_balance_report today s).2 = s ∧
        (generate_all_properties_balance_report today
            ((generate_all_properties_balance_report today s).2)).1 =
          (generate_all_properties_balance_report today s).1) ∧
      ((generate_balance_report today pid? uid? s).2 = s ∧
        (generate_balance_report today pid? uid?
            ((generate_balance_report today pid? uid? s).2)).1 =
          (generate_balance_report today pid? uid? s).1) := by
  intro s today tid uid pid pid? uid?
  refine ⟨⟨?_, ?_⟩, ⟨?_, ?_⟩, ⟨?_, ?_⟩, ⟨?_, ?_⟩, ⟨?_, ?_⟩, ⟨?_, ?_⟩⟩
  · exact preserves_generate_tenant_balance_report today tid s
  · rw [preserves_generate_tenant_balance_report today tid s]
  · exact preserves_generate_property_report today pid s
  · rw [preserves_generate_property_report today pid s]
  · exact preserves_generate_unit_balance_report today uid s
  · rw [preserves_generate_unit_balance_report today uid s]
  · exact preserves_generate_property_balance_report today pid s
  · rw [preserves_generate_property_balance_report today pid s]
  · exact preserves_generate_all_properties_balance_report today s
  · rw [preserves_generate_all_properties_balance_report today s]
  · exact preserves_generate_balance_report today pid? uid? s
  · rw [preserves_generate_balance_report today pid? uid? s]

/-! ## Claim C3: the month-count formula -/

/-- C3: `calculate_months_between` returns 0 when the start date is
strictly after today, and otherwise, with the end clamped to
`min(end_date, today)`, returns `(end.year - start.year) * 12 +
(end.month - start.month)`, plus 1 when the clamped end day-of-month is at
least the start day-of-month. -/
theorem months_between_matches_spec :
    ∀ today start_date end_date : Date,
      calculate_months_between today start_date end_date =
        monthsBetweenSpec today start_date end_date := by
  intro t s e
  unfold calculate_months_between monthsBetweenSpec
  dsimp only
  split
  · rfl
  · split
    · rfl
    · ring

/-! ## Claim C2: totality and sign of the month count -/

/-- C2 counterexample: with today = 2023-03-15, `calculate_months_between`
applied to start 2023-01-01 and end 2020-01-01 (an end before the start)
returns -35, a negative integer, contradicting "always returns a
non-negative integer" for arbitrary date pairs. -/
theorem months_between_negative_counterexample :
    calculate_months_between ⟨2023, 3, 15⟩ ⟨2023, 1, 1⟩ ⟨2020, 1, 1⟩ = -35 ∧
      calculate_months_between ⟨2023, 3, 15⟩ ⟨2023, 1, 1⟩ ⟨2020, 1, 1⟩ < 0 := by
  decide

/-- C2 amended: `calculate_months_between` is a total function (the
embedding returns an integer for every pair of valid dates, raising
nothing), and its result is non-negative whenever `start_date <= end_date`;
when `end_date` precedes `start_date` the result can be negative. -/
theorem months_between_nonneg (today start_date end_date : Date)
    (hs : ValidDate start_date) (he : ValidDate end_date) (ht : ValidDate today)
    (hle : Date.Le start_date end_date) :
    0 ≤ calculate_months_between today start_date end_date := by
  unfold calculate_months_between
  dsimp only
  split
  · exact le_refl 0
  · rename_i hnlt
    have hst : Date.Le start_date today := by
      unfold Date.Le; unfold Date.Lt at hnlt; omega
    have hsa : Date.Le start_date (dateMin end_date today) := by
      unfold dateMin; split
      · exact hst
      · exact hle
    have hva : ValidDate (dateMin end_date today) := by
      unfold dateMin; split
      · exact ht
      · exact he
    unfold Date.Le at hsa
    unfold ValidDate at hs hva
    split <;> omega

/-! ## Claim C9: the dispatcher -/

/-- C9 counterexample: `generate_balance_report` with `unit_id = 0` (an id
that is given, but falsy in Python) and no property id does not return the
unit balance report for unit 0 — it falls through to the all-properties
report. -/
theorem balance_report_dispatch_counterexample :
    (generate_balance_report ⟨2023, 5, 10⟩ none (some 0) sampleRepo).1 ≠
      ((generate_unit_balance_report ⟨2023, 5, 10⟩ 0 sampleRepo).1).map
        BalanceReport.unitR := by
  decide

/-- C9 amended: `generate_balance_report` dispatches on Python truthiness,
with `unit_id` taking precedence over `property_id`: when `unit_id` is
given and nonzero it returns the unit balance report for it; otherwise
when `property_id` is given and nonzero it returns the property balance
report; otherwise (both `None` or zero) the all-properties report. -/
theorem balance_report_dispatch (today : Date) (pid uid : Option Int) (s : Repo) :
    (truthyInt uid = true →
      (generate_balance_report today pid uid s).1 =
        ((generate_unit_balance_report today (uid.getD 0) s).1).map
          BalanceReport.unitR) ∧
    (truthyInt uid = false → truthyInt pid = true →
      (generate_balance_report today pid uid s).1 =
        ((generate_property_balance_report today (pid.getD 0) s).1).map
          BalanceReport.propR) ∧
    (truthyInt uid = false → truthyInt pid = false →
      (generate_balance_report today pid uid s).1 =
        some (BalanceReport.allR
          (generate_all_properties_balance_report today s).1)) := by
  refine ⟨fun hu => ?_, fun hu hp => ?_, fun hu hp => ?_⟩ <;>
    simp [generate_balance_report, hu, bind_apply, pure_apply]
  · rw [hp]; simp [bind_apply, pure_apply]
  · rw [hp]; simp [bind_apply, pure_apply]

/-- C9 witness: on the sample repository with a truthy unit id the
dispatcher returns exactly the unit balance report. -/
theorem balance_report_dispatch_witness :
    truthyInt (some 1) = true ∧
    (generate_balance_report ⟨2023, 5, 10⟩ none (some 1) sampleRepo).1 =
      ((generate_unit_balance_report ⟨2023, 5, 10⟩ 1 sampleRepo).1).map
        BalanceReport.unitR :=
  ⟨rfl, (balance_report_dispatch ⟨2023, 5, 10⟩ none (some 1) sampleRepo).1 rfl⟩

/-! ## Claim C5: NotFound propagation -/

/-- C5: `generate_unit_balance_report` returns `None` when the unit id does
not resolve, and also when the unit's owning property does not resolve;
`generate_property_balance_report` returns `None` when the property id does
not resolve — never a default, empty or partial report. -/
theorem report_notfound_on_missing_ids (today : Date) (uid pid : Int) (s : Repo) :
    ((unit_get_by_id uid s).1 = none →
        (generate_unit_balance_report today uid s).1 = none) ∧
    (∀ u : UnitRow, (unit_get_by_id uid s).1 = some u →
        (property_get_by_id u.property_id s).1 = none →
        (generate_unit_balance_report today uid s).1 = none) ∧
    ((property_get_by_id pid s).1 = none →
        (generate_property_balance_report today pid s).1 = none) := by
  refine ⟨fun h => ?_, fun u hu hp => ?_, fun h => ?_⟩
  · unfold generate_unit_balance_report
    simp only [unit_get_by_id, readOp_apply] at h
    simp only [bind_apply, unit_get_by_id, readOp_apply, h, pure_apply]
  · unfold generate_unit_balance_report
    simp only [unit_get_by_id, property_get_by_id, readOp_apply] at hu hp
    simp only [bind_apply, unit_get_by_id, property_get_by_id, readOp_apply,
      hu, hp, pure_apply]
  · unfold generate_property_balance_report
    simp only [property_get_by_id, readOp_apply] at h
    simp only [bind_apply, property_get_by_id, readOp_apply, h, pure_apply]

/-- C5 witness: unit id 99 and property id 99 do not exist in the sample
repository, and both reports are `None` there, also for a unit whose
property is missing in a repository with the property rows emptied. -/
theorem report_notfound_on_missing_ids_witness :
    (unit_get_by_id 99 sampleRepo).1 = none ∧
    (generate_unit_balance_report ⟨2023, 5, 10⟩ 99 sampleRepo).1 = none ∧
    (property_get_by_id 99 sampleRepo).1 = none ∧
    (generate_property_balance_report ⟨2023, 5, 10⟩ 99 sampleRepo).1 = none := by
  refine ⟨by decide, ?_, by decide, ?_⟩
  · exact (report_notfound_on_missing_ids ⟨2023, 5, 10⟩ 99 99 sampleRepo).1 (by decide)
  · exact (report_notfound_on_missing_ids ⟨2023, 5, 10⟩ 99 99 sampleRepo).2.2 (by decide)

/-! ## Claim C10: unit report defaults without an active lease -/

/-- C10: for a unit that resolves, whose property resolves, and that has no
active lease, `generate_unit_balance_report` returns a report (not `None`)
with `active_lease_id`, `rent_amount` and both lease dates `None`, zero
totals and balance, and empty missing-period and payment-history lists. -/
theorem unit_report_no_active_lease_defaults (today : Date) (uid : Int) (s : Repo)
    (u : UnitRow) (p : PropertyRow)
    (hu : (unit_get_by_id uid s).1 = some u)
    (hp : (property_get_by_id u.property_id s).1 = some p)
    (hl : ((lease_get_by_unit uid s).1).filter (fun l => l.status == "active") = []) :
    ∃ r : UnitBalanceReport, (generate_unit_balance_report today uid s).1 = some r ∧
      r.active_lease_id = none ∧ r.rent_amount = none ∧
      r.lease_start_date = none ∧ r.lease_end_date = none ∧
      r.total_due = 0 ∧ r.total_paid = 0 ∧ r.balance = 0 ∧
      r.missing_periods = [] ∧ r.payment_history = [] := by
  unfold generate_unit_balance_report
  simp only [unit_get_by_id, property_get_by_id, lease_get_by_unit, readOp_apply]
    at hu hp hl
  simp only [bind_apply, unit_get_by_id, property_get_by_id, tenant_get_by_unit,
    lease_get_by_unit, readOp_apply, hu, hp, hl, pure_apply]
  refine ⟨_, rfl, rfl, rfl, rfl, rfl, rfl, rfl, ?_, rfl, rfl⟩
  show fsub 0 0 = 0
  decide

/-- C10 witness: in the sample repository with all leases removed, unit 1
still resolves to property 1 and its report carries the zero/`None`
defaults. -/
theorem unit_report_no_active_lease_defaults_witness :
    (unit_get_by_id 1 noLeaseRepo).1 = some ⟨1, "101", 1⟩ ∧
    (property_get_by_id 1 noLeaseRepo).1 =
      some ⟨1, "Sunset Apartments", "123 Main Street, Anytown, USA"⟩ ∧
    ((lease_get_by_unit 1 noLeaseRepo).1).filter (fun l => l.status == "active") = [] ∧
    ∃ r : UnitBalanceReport,
      (generate_unit_balance_report ⟨2023, 5, 10⟩ 1 noLeaseRepo).1 = some r ∧
      r.active_lease_id = none ∧ r.rent_amount = none ∧
      r.lease_start_date = none ∧ r.lease_end_date = none ∧
      r.total_due = 0 ∧ r.total_paid = 0 ∧ r.balance = 0 ∧
      r.missing_periods = [] ∧ r.payment_history = [] := by
  refine ⟨by decide, by decide, by decide, ?_⟩
  exact unit_report_no_active_lease_defaults ⟨2023, 5, 10⟩ 1 noLeaseRepo
    ⟨1, "101", 1⟩ ⟨1, "Sunset Apartments", "123 Main Street, Anytown, USA"⟩
    (by decide) (by decide) (by decide)

/-! ## Claim C7: tenant report aggregation -/

/-- Run shape of `generate_tenant_balance_report` for an existing tenant:
the report is built from the tenant's own payments and first active lease
(the resolved property id is existentially quantified; it does not affect
the financial fields). -/
theorem tenant_report_shape (today : Date) (tid : Int) (s : Repo)
    (tenant : TenantRow)
    (hten : (tenant_get_by_id tid s).1 = some tenant) :
    ∃ pid : Option Int,
      (generate_tenant_balance_report today tid s).1 = some
        { tenant_id := tenant.tenant_id
          tenant_name := tenant.name
          unit_id := tenant.unit_id
          property_id := pid
          lease_summary :=
            match (lease_get_by_tenant tid s).1.filter
                (fun l => l.status == "active") with
            | [] => none
            | lease :: _ =>
              some { lease_id := lease.lease_id
                     rent_amount := lease.rent_amount
                     start_date := lease.start_date
                     end_date := lease.end_date
                     months_active :=
                       calculate_months_between today lease.start_date lease.end_date
                     total_rent_due :=
                       fmul lease.rent_amount
                         ((calculate_months_between today lease.start_date
                           lease.end_date : Int) : Rat)
                     total_paid :=
                       pySum (((payment_get_by_tenant tid s).1.filter (fun p =>
                         p.lease_id == lease.lease_id &&
                           p.payment_type == PaymentType.rent)).map
                             (fun p => p.amount))
                     balance :=
                       fsub
                         (fmul lease.rent_amount
                           ((calculate_months_between today lease.start_date
                             lease.end_date : Int) : Rat))
                         (pySum (((payment_get_by_tenant tid s).1.filter (fun p =>
                           p.lease_id == lease.lease_id &&
                             p.payment_type == PaymentType.rent)).map
                               (fun p => p.amount))) }
          payment_summary :=
            { count := (payment_get_by_tenant tid s).1.length
              total_amount :=
                pySum ((payment_get_by_tenant tid s).1.map (fun p => p.amount))
              rent_amount :=
                pySum (((payment_get_by_tenant tid s).1.filter
                  (fun p => p.payment_type == PaymentType.rent)).map
                    (fun p => p.amount))
              security_deposit_amount :=
                pySum (((payment_get_by_tenant tid s).1.filter
                  (fun p => p.payment_type == PaymentType.security_deposit)).map
                    (fun p => p.amount))
              late_fee_amount :=
                pySum (((payment_get_by_tenant tid s).1.filter
                  (fun p => p.payment_type == PaymentType.late_fee)).map
                    (fun p => p.amount))
              utility_amount :=
                pySum (((payment_get_by_tenant tid s).1.filter
                  (fun p => p.payment_type == PaymentType.utility)).map
                    (fun p => p.amount))
              maintenance_amount :=
                pySum (((payment_get_by_tenant tid s).1.filter
                  (fun p => p.payment_type == PaymentType.maintenance)).map
                    (fun p => p.amount))
              other_amount :=
                pySum (((payment_get_by_tenant tid s).1.filter
                  (fun p => p.payment_type == PaymentType.other)).map
                    (fun p => p.amount)) } } := by
  unfold generate_tenant_balance_report
  simp only [tenant_get_by_id, readOp_apply] at hten
  simp only [bind_apply, tenant_get_by_id, readOp_apply, hten]
  cases htu : tenant.unit_id with
  | none =>
    refine ⟨none, ?_⟩
    simp only [bind_apply, pure_apply, lease_get_by_tenant, payment_get_by_tenant,
      readOp_apply, htu]
  | some uid =>
    by_cases hz : (uid != 0) = true
    · refine ⟨((unit_get_by_id uid s).1).map (fun u => u.property_id), ?_⟩
      simp only [bind_apply, pure_apply, unit_get_by_id, lease_get_by_tenant,
        payment_get_by_tenant, readOp_apply, htu, hz, if_true]
    · refine ⟨none, ?_⟩
      simp only [Bool.not_eq_true] at hz
      simp only [bind_apply, pure_apply, unit_get_by_id, lease_get_by_tenant,
        payment_get_by_tenant, readOp_apply, htu, hz, Bool.false_eq_true, if_false]

/-- C7: for an existing tenant, the report's `payment_summary` aggregates
the count and the per-type totals over all of the tenant's payments (not
restricted to any lease), while, when an active lease exists, the lease
summary is built from the first active lease and its `total_paid` sums only
the tenant's rent-type payments whose `lease_id` matches that lease; on the
sample data (rent 1200, lease 2023-01-01 to 2024-01-01, one rent payment of
1200 on 2023-01-05) with today = 2023-05-10 the lease summary is
`months_active = 5`, `total_rent_due = 6000`, `total_paid = 1200`,
`balance = 4800`. -/
theorem tenant_report_aggregation :
    (∀ (today : Date) (tid : Int) (s : Repo) (tenant : TenantRow)
        (r : TenantBalanceReport),
      (tenant_get_by_id tid s).1 = some tenant →
      (generate_tenant_balance_report today tid s).1 = some r →
      (r.payment_summary.count = (payment_get_by_tenant tid s).1.length ∧
        r.payment_summary.total_amount =
          pySum ((payment_get_by_tenant tid s).1.map (fun p => p.amount)) ∧
        r.payment_summary.rent_amount =
          pySum (((payment_get_by_tenant tid s).1.filter
            (fun p => p.payment_type == PaymentType.rent)).map (fun p => p.amount)) ∧
        r.payment_summary.security_deposit_amount =
          pySum (((payment_get_by_tenant tid s).1.filter
            (fun p => p.payment_type == PaymentType.security_deposit)).map
              (fun p => p.amount)) ∧
        r.payment_summary.late_fee_amount =
          pySum (((payment_get_by_tenant tid s).1.filter
            (fun p => p.payment_type == PaymentType.late_fee)).map
              (fun p => p.amount)) ∧
        r.payment_summary.utility_amount =
          pySum (((payment_get_by_tenant tid s).1.filter
            (fun p => p.payment_type == PaymentType.utility)).map
              (fun p => p.amount)) ∧
        r.payment_summary.maintenance_amount =
          pySum (((payment_get_by_tenant tid s).1.filter
            (fun p => p.payment_type == PaymentType.maintenance)).map
              (fun p => p.amount)) ∧
        r.payment_summary.other_amount =
          pySum (((payment_get_by_tenant tid s).1.filter
            (fun p => p.payment_type == PaymentType.other)).map
              (fun p => p.amount))) ∧
      ((lease_get_by_tenant tid s).1.filter (fun l => l.status == "active") ≠ [] →
        r.lease_summary.isSome = true) ∧
      (∀ ls : LeaseFinancialSummary, r.lease_summary = some ls →
        ∃ (lease : Lease) (rest : List Lease),
          (lease_get_by_tenant tid s).1.filter (fun l => l.status == "active") =
            lease :: rest ∧
          ls.lease_id = lease.lease_id ∧
          ls.months_active =
            calculate_months_between today lease.start_date lease.end_date ∧
          ls.total_rent_due =
            fmul lease.rent_amount ((ls.months_active : Int) : Rat) ∧
          ls.total_paid =
            pySum (((payment_get_by_tenant tid s).1.filter (fun p =>
              p.lease_id == lease.lease_id &&
                p.payment_type == PaymentType.rent)).map (fun p => p.amount)) ∧
          ls.balance = fsub ls.total_rent_due ls.total_paid)) ∧
    ((generate_tenant_balance_report ⟨2023, 5, 10⟩ 1 sampleRepo).1.map (fun r =>
        r.lease_summary.map (fun ls =>
          (ls.months_active, ls.total_rent_due, ls.total_paid, ls.balance))) =
      some (some (5, 6000, 1200, 4800))) := by
  constructor
  · intro today tid s tenant r hten hr
    obtain ⟨pid, hshape⟩ := tenant_report_shape today tid s tenant hten
    rw [hshape] at hr
    rw [Option.some_inj] at hr
    subst hr
    refine ⟨⟨rfl, rfl, rfl, rfl, rfl, rfl, rfl, rfl⟩, ?_, ?_⟩
    · intro hne
      cases hfa : (lease_get_by_tenant tid s).1.filter
          (fun l => l.status == "active") with
      | nil => exact absurd hfa hne
      | cons lease rest => simp only [hfa, Option.isSome_some]
    · intro ls hls
      cases hfa : (lease_get_by_tenant tid s).1.filter
          (fun l => l.status == "active") with
      | nil => rw [hfa] at hls; simp at hls
      | cons lease rest =>
        rw [hfa] at hls
        simp only at hls
        rw [Option.some_inj] at hls
        subst hls
        exact ⟨lease, rest, rfl, rfl, rfl, rfl, rfl, rfl⟩
  · decide

/-- C7 witness: the general part applied to tenant 1 of the sample
repository at today = 2023-05-10: the payment summary counts the tenant's
single 1200 rent payment. -/
theorem tenant_report_aggregation_witness :
    (tenant_get_by_id 1 sampleRepo).1 =
      some ⟨1, "John Smith", some "john.smith@example.com",
        some "555-123-4567", some 1, "active"⟩ ∧
    ∃ r : TenantBalanceReport,
      (generate_tenant_balance_report ⟨2023, 5, 10⟩ 1 sampleRepo).1 = some r ∧
      r.payment_summary.count = (payment_get_by_tenant 1 sampleRepo).1.length := by
  refine ⟨by decide, ?_⟩
  have h : (generate_tenant_balance_report ⟨2023, 5, 10⟩ 1 sampleRepo).1.isSome = true := by
    decide
  obtain ⟨r, hr⟩ := Option.isSome_iff_exists.mp h
  refine ⟨r, hr, ?_⟩
  exact ((tenant_report_aggregation.1 ⟨2023, 5, 10⟩ 1 sampleRepo
    ⟨1, "John Smith", some "john.smith@example.com", some "555-123-4567",
      some 1, "active"⟩ r (by decide) hr).1).1

/-- C2 witness: the amended non-negativity at a concrete ordered pair of
dates. -/
theorem months_between_nonneg_witness :
    ValidDate ⟨2023, 1, 1⟩ ∧ ValidDate ⟨2024, 1, 1⟩ ∧ ValidDate ⟨2023, 3, 15⟩ ∧
    Date.Le ⟨2023, 1, 1⟩ ⟨2024, 1, 1⟩ ∧
    0 ≤ calculate_months_between ⟨2023, 3, 15⟩ ⟨2023, 1, 1⟩ ⟨2024, 1, 1⟩ :=
  ⟨by decide, by decide, by decide, by decide,
    months_between_nonneg ⟨2023, 3, 15⟩ ⟨2023, 1, 1⟩ ⟨2024, 1, 1⟩
      (by decide) (by decide) (by decide) (by decide)⟩

/-! ## Claim C6: descending stable sorts of the balance lists -/

theorem pySortDesc_sorted (key : α → Rat) (l : List α) :
    (pySortDesc key l).Pairwise (fun a b => key b ≤ key a) := by
  haveI : IsTotal α (fun a b => key b ≤ key a) := ⟨fun a b => le_total (key b) (key a)⟩
  haveI : IsTrans α (fun a b => key b ≤ key a) :=
    ⟨fun _ _ _ hab hbc => le_trans hbc hab⟩
  exact List.sorted_insertionSort _ l

theorem pySortDesc_stable (key : α → Rat) (l : List α) (a b : α)
    (hab : key b ≤ key a) (h : List.Sublist [a, b] l) :
    List.Sublist [a, b] (pySortDesc key l) :=
  List.pair_sublist_insertionSort hab h

theorem pySortDesc_perm (key : α → Rat) (l : List α) : (pySortDesc key l).Perm l :=
  List.perm_insertionSort _ l

/-- C6: `generate_property_balance_report` sorts `unit_balances` by balance
descending with a stable sort (a permutation of the per-unit list built in
repository return order, in which entries with equal balance keep that
order), `generate_all_properties_balance_report` sorts
`property_summaries` the same way by `get_balance_value`, and that sort key
maps an absent/`None` balance to 0 instead of raising. -/
theorem balance_lists_sorted_desc_stable :
    (∀ (today : Date) (pid : Int) (s : Repo) (r : PropertyBalanceReport),
      (generate_property_balance_report today pid s).1 = some r →
      (r.unit_balances.Pairwise (fun a b => b.balance ≤ a.balance) ∧
        r.unit_balances.Perm
          (collectUnitBalances today ((unit_get_by_property pid s).1) s).1 ∧
        (∀ a b : UnitBalanceInfo, a.balance = b.balance →
          List.Sublist [a, b]
            (collectUnitBalances today ((unit_get_by_property pid s).1) s).1 →
          List.Sublist [a, b] r.unit_balances))) ∧
    (∀ (today : Date) (s : Repo),
      ((generate_all_properties_balance_report today s).1.property_summaries.Pairwise
          (fun a b => get_balance_value b ≤ get_balance_value a) ∧
        ((generate_all_properties_balance_report today s).1.property_summaries).Perm
          (collectPropertySummaries today s.properties s).1 ∧
        (∀ a b : PropertySummaryEntry, get_balance_value a = get_balance_value b →
          List.Sublist [a, b] (collectPropertySummaries today s.properties s).1 →
          List.Sublist [a, b]
            (generate_all_properties_balance_report today s).1.property_summaries))) ∧
    (∀ e : PropertySummaryEntry, e.balance = none → get_balance_value e = 0) := by
  refine ⟨fun today pid s r hr => ?_, fun today s => ?_, fun e he => ?_⟩
  · unfold generate_property_balance_report at hr
    simp only [bind_apply, property_get_by_id, readOp_apply] at hr
    cases hp : s.properties.find? (fun p => p.id == pid) with
    | none => rw [hp] at hr; simp [pure_apply] at hr
    | some prop =>
      rw [hp] at hr
      simp only [bind_apply, unit_get_by_property, readOp_apply, pure_apply] at hr
      rw [Option.some_inj] at hr
      subst hr
      refine ⟨pySortDesc_sorted _ _, pySortDesc_perm _ _, fun a b hab hsub => ?_⟩
      exact pySortDesc_stable _ _ a b (le_of_eq (by rw [hab])) hsub
  · unfold generate_all_properties_balance_report
    simp only [bind_apply, property_get_all, readOp_apply, pure_apply]
    refine ⟨pySortDesc_sorted _ _, pySortDesc_perm _ _, fun a b hab hsub => ?_⟩
    exact pySortDesc_stable _ _ a b (le_of_eq (by rw [hab])) hsub
  · unfold get_balance_value
    rw [he]

/-- C6 witness: the concrete sorted unit list of property 1 in the sample
repository (balances 4800 then 3000, descending), and the defensive sort
key on an entry with a `None` balance. -/
theorem balance_lists_sorted_desc_stable_witness :
    (generate_property_balance_report ⟨2023, 5, 10⟩ 1 sampleRepo).1 = some
      { property_id := 1
        property_name := "Sunset Apartments"
        report_date := ⟨2023, 5, 10⟩
        unit_count := 2
        occupied_units := 2
        total_due := 10000
        total_paid := 2200
        total_balance := 7800
        units_with_balance := 2
        unit_balances := [
          ⟨1, "101", true, 1, some 1200, 6000, 1200, 4800, true, 4⟩,
          ⟨2, "102", true, 1, some 1000, 4000, 1000, 3000, true, 3⟩] } ∧
    ({ property_id := 1
       property_name := "Sunset Apartments"
       report_date := ⟨2023, 5, 10⟩
       unit_count := 2
       occupied_units := 2
       total_due := 10000
       total_paid := 2200
       total_balance := 7800
       units_with_balance := 2
       unit_balances := [
         ⟨1, "101", true, 1, some 1200, 6000, 1200, 4800, true, 4⟩,
         ⟨2, "102", true, 1, some 1000, 4000, 1000, 3000, true, 3⟩]
       : PropertyBalanceReport }).unit_balances.Pairwise
      (fun a b => b.balance ≤ a.balance) ∧
    get_balance_value ⟨7, "x", 0, 0, 0, 0, none, 0⟩ = 0 := by
  have h : (generate_property_balance_report ⟨2023, 5, 10⟩ 1 sampleRepo).1 = some
      { property_id := 1
        property_name := "Sunset Apartments"
        report_date := ⟨2023, 5, 10⟩
        unit_count := 2
        occupied_units := 2
        total_due := 10000
        total_paid := 2200
        total_balance := 7800
        units_with_balance := 2
        unit_balances := [
          ⟨1, "101", true, 1, some 1200, 6000, 1200, 4800, true, 4⟩,
          ⟨2, "102", true, 1, some 1000, 4000, 1000, 3000, true, 3⟩] } := by decide
  exact ⟨h, (balance_lists_sorted_desc_stable.1 ⟨2023, 5, 10⟩ 1 sampleRepo _ h).1,
    balance_lists_sorted_desc_stable.2.2 _ rfl⟩

/-! ## Claims C1/C4: the month enumeration of the missing-period detector -/

theorem advanceMonth_monthKey (d : Date) :
    monthKey (advanceMonth d) = monthKey d + 1 := by
  unfold advanceMonth monthKey
  split
  · rename_i hm
    simp only [beq_iff_eq] at hm
    simp only
    omega
  · split
    · simp only; omega
    · split <;> simp only <;> omega

theorem advanceMonth_valid (d : Date) (hd : ValidDate d) :
    ValidDate (advanceMonth d) := by
  obtain ⟨hm1, hm2, hd1, hd2⟩ := hd
  unfold advanceMonth
  split
  · unfold ValidDate daysInMonth
    dsimp only
    norm_num
  · rename_i hm12
    simp only [beq_iff_eq] at hm12
    split
    · assumption
    · rename_i hnv
      split
      · rename_i hfeb
        simp only [beq_iff_eq] at hfeb
        unfold ValidDate daysInMonth
        dsimp only
        rw [hfeb]
        norm_num
        split <;> omega
      · rename_i hfeb
        simp only [beq_iff_eq] at hfeb
        unfold ValidDate daysInMonth
        dsimp only
        refine ⟨by omega, by omega, by omega, ?_⟩
        split
        · rename_i h2; simp only [beq_iff_eq] at h2; omega
        · split <;> omega

theorem advanceMonth_day_le (d : Date) (hd : ValidDate d) (D : Nat)
    (hday : d.day ≤ D) (hD : 1 ≤ D) : (advanceMonth d).day ≤ D := by
  obtain ⟨hm1, hm2, hd1, hd2⟩ := hd
  unfold advanceMonth
  split
  · exact hD
  · rename_i hm12
    simp only [beq_iff_eq] at hm12
    split
    · exact hday
    · rename_i hnv
      unfold ValidDate at hnv
      dsimp only at hnv
      simp only [not_and, not_le] at hnv
      have hbig := hnv (by omega) (by omega) (by omega)
      split
      · rename_i hfeb
        simp only [beq_iff_eq] at hfeb
        simp only [daysInMonth, hfeb] at hbig
        norm_num at hbig
        dsimp only
        split at hbig <;> omega
      · rename_i hfeb
        simp only [Bool.not_eq_true] at hfeb
        simp only [daysInMonth, hfeb] at hbig
        dsimp only
        simp only [Bool.false_eq_true, if_false] at hbig
        split at hbig <;> omega

theorem keyToYM_monthKey (d : Date) (h1 : 1 ≤ d.month) (h2 : d.month ≤ 12) :
    keyToYM (monthKey d) = (d.year, d.month) := by
  unfold keyToYM monthKey
  have hy : (d.year * 12 + d.month - 1) / 12 = d.year := by omega
  have hm : (d.year * 12 + d.month - 1) % 12 + 1 = d.month := by omega
  rw [hy, hm]

theorem keyToYM_eq_iff (k : Nat) (hk : 1 ≤ k) (y m : Nat) :
    keyToYM k = (y, m) ↔ (1 ≤ m ∧ m ≤ 12 ∧ y * 12 + m = k) := by
  unfold keyToYM
  rw [Prod.mk.injEq]
  omega

theorem dateLe_iff_monthKey (cur today : Date)
    (hc : ValidDate cur) (ht : ValidDate today) (hday : cur.day ≤ today.day) :
    Date.Le cur today ↔ monthKey cur ≤ monthKey today := by
  obtain ⟨hc1, hc2, _, _⟩ := hc
  obtain ⟨ht1, ht2, _, _⟩ := ht
  unfold Date.Le monthKey
  omega

theorem expectedMonthsAux_eq (today : Date) (hT : ValidDate today) :
    ∀ (fuel : Nat) (cur : Date), ValidDate cur → cur.day ≤ today.day →
      fuel = monthKey today + 1 - monthKey cur →
      expectedMonthsAux today fuel cur =
        (List.range' (monthKey cur) fuel).map keyToYM := by
  intro fuel
  induction fuel with
  | zero => intro cur _ _ _; rfl
  | succ n ih =>
    intro cur hv hday hfuel
    have hk : monthKey cur ≤ monthKey today := by omega
    have hle : Date.Le cur today := (dateLe_iff_monthKey cur today hv hT hday).mpr hk
    unfold expectedMonthsAux
    rw [if_pos hle]
    have hvadv := advanceMonth_valid cur hv
    have hdadv := advanceMonth_day_le cur hv today.day hday (by exact hT.2.2.1)
    have hkadv := advanceMonth_monthKey cur
    rw [ih (advanceMonth cur) hvadv hdadv (by omega)]
    rw [List.range'_succ]
    rw [List.map_cons]
    rw [keyToYM_monthKey cur hv.1 hv.2.1, hkadv]

theorem expectedMonths_eq (today lease_start : Date)
    (hT : ValidDate today) (hS : ValidDate lease_start)
    (hday : lease_start.day ≤ today.day) :
    expectedMonths today lease_start =
      monthsFromTo (monthKey lease_start) (monthKey today) := by
  unfold expectedMonths monthsFromTo
  exact expectedMonthsAux_eq today hT _ lease_start hS hday rfl

theorem countP_beq_nodup [BEq α] [LawfulBEq α] (l : List α) (h : l.Nodup) (x : α) :
    l.countP (fun z => z == x) = if x ∈ l then 1 else 0 := by
  induction l with
  | nil => simp
  | cons a t ih =>
    rw [List.nodup_cons] at h
    obtain ⟨hna, hnt⟩ := h
    rw [List.countP_cons, ih hnt]
    by_cases hax : a = x
    · subst hax
      simp [hna]
    · have hf : (a == x) = false := by simp [hax]
      simp only [hf, Bool.false_eq_true, if_false, Nat.add_zero, List.mem_cons]
      by_cases hxt : x ∈ t
      · simp [hxt]
      · simp [hxt, Ne.symm hax]

theorem monthsFromTo_mem (a b : Nat) (ha : 1 ≤ a) (y m : Nat) :
    (y, m) ∈ monthsFromTo a b ↔
      (1 ≤ m ∧ m ≤ 12 ∧ a ≤ y * 12 + m ∧ y * 12 + m ≤ b) := by
  unfold monthsFromTo
  rw [List.mem_map]
  constructor
  · rintro ⟨k, hk, hkeq⟩
    rw [List.mem_range'] at hk
    obtain ⟨i, hi, rfl⟩ := hk
    rw [keyToYM_eq_iff _ (by omega)] at hkeq
    omega
  · rintro ⟨hm1, hm2, hge, hle⟩
    refine ⟨y * 12 + m, ?_, ?_⟩
    · rw [List.mem_range']
      exact ⟨y * 12 + m - a, by omega, by omega⟩
    · rw [keyToYM_eq_iff _ (by omega)]
      exact ⟨hm1, hm2, rfl⟩

theorem monthsFromTo_nodup (a b : Nat) (ha : 1 ≤ a) : (monthsFromTo a b).Nodup := by
  unfold monthsFromTo
  refine List.Nodup.map_on ?_ (List.nodup_range' _ _)
  intro x hx z hz hxz
  rw [List.mem_range'] at hx hz
  obtain ⟨i, hi, rfl⟩ := hx
  obtain ⟨j, hj, rfl⟩ := hz
  unfold keyToYM at hxz
  rw [Prod.mk.injEq] at hxz
  omega

theorem countP_pair_nodup (l : List (Nat × Nat)) (h : l.Nodup) (y m : Nat) :
    l.countP (fun ym => ym.1 == y && ym.2 == m) = if (y, m) ∈ l then 1 else 0 := by
  have he : (fun ym : Nat × Nat => ym.1 == y && ym.2 == m) =
      (fun ym => ym == (y, m)) := by
    funext ym; rfl
  rw [he]
  exact countP_beq_nodup l h (y, m)

/-- C1 counterexample: with lease start 2023-01-20 (not after today =
2023-03-15) and no payments, the current month (2023, 3) is unpaid and in
range, yet the function emits only (2023, 1) and (2023, 2): the month walk
stops at 2023-03-20 > today, so the claim's "through the current month
(inclusive)" fails when the start day-of-month exceeds today's. -/
theorem missing_periods_claim_counterexample :
    Date.Le ⟨2023, 1, 20⟩ ⟨2023, 3, 15⟩ ∧
    (identify_missing_payment_periods ⟨2023, 3, 15⟩ ⟨2023, 1, 20⟩ 1000 []).map
      (fun p => (p.year, p.month)) = [(2023, 1), (2023, 2)] ∧
    (∀ p ∈ identify_missing_payment_periods ⟨2023, 3, 15⟩ ⟨2023, 1, 20⟩ 1000 [],
      ¬(p.year = 2023 ∧ p.month = 3)) := by
  decide

/-- C1 amended: for a valid lease start not after today *whose day-of-month
is at most today's day-of-month*, `identify_missing_payment_periods`
returns exactly one `MissingPaymentPeriod` with `amount_due = monthly_rent`
for each (year, month) pair from the lease start's month through the
current month (inclusive) that has no payment dated in that month, and no
entry for any other month. -/
theorem missing_periods_enumerates_unpaid_months
    (today lease_start_date : Date) (monthly_rent : Rat)
    (payments : List PaymentDict)
    (hT : ValidDate today) (hS : ValidDate lease_start_date)
    (_hle : Date.Le lease_start_date today)
    (hday : lease_start_date.day ≤ today.day) :
    identify_missing_payment_periods today lease_start_date monthly_rent payments =
      ((monthsFromTo (monthKey lease_start_date) (monthKey today)).filter
        (fun ym => !((paidMonths payments).contains ym))).map
        (fun ym => ⟨ym.1, ym.2, get_month_name ym.2, monthly_rent⟩) ∧
    (∀ y m : Nat,
      ((identify_missing_payment_periods today lease_start_date monthly_rent
          payments).filter (fun p => p.year == y && p.month == m)).length =
        if 1 ≤ m ∧ m ≤ 12 ∧ monthKey lease_start_date ≤ y * 12 + m ∧
            y * 12 + m ≤ monthKey today ∧ (y, m) ∉ paidMonths payments
        then 1 else 0) ∧
    (∀ p ∈ identify_missing_payment_periods today lease_start_date monthly_rent
        payments, p.amount_due = monthly_rent) := by
  have ha : 1 ≤ monthKey lease_start_date := by
    have := hS.1; unfold monthKey; omega
  have hid :
      identify_missing_payment_periods today lease_start_date monthly_rent payments =
        ((monthsFromTo (monthKey lease_start_date) (monthKey today)).filter
          (fun ym => !((paidMonths payments).contains ym))).map
          (fun ym => ⟨ym.1, ym.2, get_month_name ym.2, monthly_rent⟩) := by
    unfold identify_missing_payment_periods
    rw [expectedMonths_eq today lease_start_date hT hS hday]
  refine ⟨hid, fun y m => ?_, fun p hp => ?_⟩
  · rw [hid]
    rw [List.filter_map, List.length_map, ← List.countP_eq_length_filter]
    have hcomp :
        ((fun p : MissingPaymentPeriod => p.year == y && p.month == m) ∘
          (fun ym : Nat × Nat => (⟨ym.1, ym.2, get_month_name ym.2, monthly_rent⟩ :
            MissingPaymentPeriod))) =
          (fun ym : Nat × Nat => ym.1 == y && ym.2 == m) := by
      funext ym; rfl
    rw [hcomp]
    rw [countP_pair_nodup _
      (List.Nodup.filter _ (monthsFromTo_nodup _ _ ha)) y m]
    have hiff :
        ((y, m) ∈ (monthsFromTo (monthKey lease_start_date) (monthKey today)).filter
          (fun ym => !((paidMonths payments).contains ym))) ↔
        (1 ≤ m ∧ m ≤ 12 ∧ monthKey lease_start_date ≤ y * 12 + m ∧
          y * 12 + m ≤ monthKey today ∧ (y, m) ∉ paidMonths payments) := by
      rw [List.mem_filter]
      rw [monthsFromTo_mem _ _ ha]
      simp only [List.contains, List.elem_eq_mem, Bool.not_eq_true',
        decide_eq_false_iff_not]
      tauto
    simp only [hiff]
  · rw [hid] at hp
    rw [List.mem_map] at hp
    obtain ⟨ym, _, rfl⟩ := hp
    rfl

/-- C1 witness: the amended enumeration at the claim's own example (lease
start 2023-01-01, rent 1000, no payments, today 2023-03-15), which yields
exactly (2023, 1), (2023, 2), (2023, 3). -/
theorem missing_periods_enumerates_unpaid_months_witness :
    ValidDate ⟨2023, 3, 15⟩ ∧ ValidDate ⟨2023, 1, 1⟩ ∧
    Date.Le ⟨2023, 1, 1⟩ ⟨2023, 3, 15⟩ ∧
    (⟨2023, 1, 1⟩ : Date).day ≤ (⟨2023, 3, 15⟩ : Date).day ∧
    identify_missing_payment_periods ⟨2023, 3, 15⟩ ⟨2023, 1, 1⟩ 1000 [] =
      ((monthsFromTo (monthKey ⟨2023, 1, 1⟩) (monthKey ⟨2023, 3, 15⟩)).filter
        (fun ym => !((paidMonths []).contains ym))).map
        (fun ym => ⟨ym.1, ym.2, get_month_name ym.2, 1000⟩) ∧
    (identify_missing_payment_periods ⟨2023, 3, 15⟩ ⟨2023, 1, 1⟩ 1000 []).map
      (fun p => (p.year, p.month)) = [(2023, 1), (2023, 2), (2023, 3)] :=
  ⟨by decide, by decide, by decide, by decide,
    (missing_periods_enumerates_unpaid_months ⟨2023, 3, 15⟩ ⟨2023, 1, 1⟩ 1000 []
      (by decide) (by decide) (by decide) (by decide)).1, by decide⟩

/-- C4: a month with at least one payment dated in it — regardless of the
payment's amount — is never emitted as a missing period; with one payment
dated 2023-02-15 on a lease started 2023-01-01 (rent 1000) and today =
2023-03-15, exactly (2023, 1) and (2023, 3) are emitted, each with
`amount_due = 1000`. -/
theorem paid_month_not_missing :
    (∀ (today lease_start_date : Date) (monthly_rent : Rat)
        (payments : List PaymentDict) (y m : Nat),
      (∃ p ∈ payments, ∃ d : Date, p.payment_date = some d ∧ d.year = y ∧ d.month = m) →
      ∀ entry ∈ identify_missing_payment_periods today lease_start_date monthly_rent
        payments, ¬(entry.year = y ∧ entry.month = m)) ∧
    identify_missing_payment_periods ⟨2023, 3, 15⟩ ⟨2023, 1, 1⟩ 1000
        [⟨some ⟨2023, 2, 15⟩, 1000⟩] =
      [⟨2023, 1, "January", 1000⟩, ⟨2023, 3, "March", 1000⟩] := by
  constructor
  · rintro today start rent payments y m ⟨p, hp, d, hpd, hdy, hdm⟩ entry hent ⟨hey, hem⟩
    unfold identify_missing_payment_periods at hent
    simp only [List.mem_map, List.mem_filter] at hent
    obtain ⟨ym, ⟨_, hcont⟩, hentEq⟩ := hent
    have hy1 : ym.1 = y := by rw [← hentEq] at hey; exact hey
    have hy2 : ym.2 = m := by rw [← hentEq] at hem; exact hem
    have hpm : ym ∈ paidMonths payments := by
      have hdm' : (d.year, d.month) = ym := by
        rw [hdy, hdm]
        exact (Prod.ext hy1 hy2).symm
      rw [← hdm']
      exact List.mem_filterMap.mpr ⟨p, hp, by rw [hpd]; rfl⟩
    simp only [List.contains, List.elem_eq_mem, Bool.not_eq_true',
      decide_eq_false_iff_not] at hcont
    exact hcont hpm
  · decide

/-- C4 witness: the general part applied to the single payment dated
2023-02-15 — the month (2023, 2) is never emitted. -/
theorem paid_month_not_missing_witness :
    (∃ p ∈ [(⟨some ⟨2023, 2, 15⟩, 1000⟩ : PaymentDict)], ∃ d : Date,
        p.payment_date = some d ∧ d.year = 2023 ∧ d.month = 2) ∧
    (∀ entry ∈ identify_missing_payment_periods ⟨2023, 3, 15⟩ ⟨2023, 1, 1⟩ 1000
        [⟨some ⟨2023, 2, 15⟩, 1000⟩], ¬(entry.year = 2023 ∧ entry.month = 2)) := by
  have hex : ∃ p ∈ [(⟨some ⟨2023, 2, 15⟩, 1000⟩ : PaymentDict)], ∃ d : Date,
      p.payment_date = some d ∧ d.year = 2023 ∧ d.month = 2 :=
    ⟨⟨some ⟨2023, 2, 15⟩, 1000⟩, List.mem_singleton.mpr rfl,
      ⟨2023, 2, 15⟩, rfl, rfl, rfl⟩
  exact ⟨hex,
    paid_month_not_missing.1 ⟨2023, 3, 15⟩ ⟨2023, 1, 1⟩ 1000 _ 2023 2 hex⟩
